import Mathlib

/-!
Shallow embedding of the repotown banking and treasury services.

Conventions of the embedding:
* Go `int64` fields (balances, amounts, in cents) are modelled as `Int`.
* `time.Time` values are modelled as `Int` timestamps; `t1.Before(t2)` is `t1 < t2`;
  the zero value `time.Time{}` is `0`.  Each operation that calls `time.Now()`
  receives the current instant as an explicit `now` parameter.
* `uuid.New().String()` and generated reference/confirmation codes are received as
  explicit `String` parameters by the operations that create them.
* Go `float64` rates are modelled as exact rationals (`ℚ`); `int64(x)` conversion of
  a nonintegral product truncates toward zero, modelled with truncating division
  (`Int.tdiv`) on the rational's numerator and denominator.
* Methods that mutate their receiver and return `error` are modelled as functions
  returning the (possibly updated) receiver paired with an `Option` error; the Go
  error-return path leaves the receiver untouched exactly when the model returns
  the receiver unchanged.
* Repositories are modelled as in-memory lists keyed by `id`; `GetByID` is a list
  lookup and `Update` replaces the entry with the matching id and always succeeds.
-/

namespace Repotown

/-! ## Banking domain: accounts (src/unnamed/part_009, package banking/internal/domain) -/

inductive AccountStatus where
  | active
  | inactive
  | closed
deriving DecidableEq, Repr

inductive AccountType where
  | savings
  | checking
  | creditCard
deriving DecidableEq, Repr

inductive AccountError where
  | insufficientFunds
  | accountNotFound
  | accountClosed
deriving DecidableEq, Repr

/-- The `Account` struct: balance is in cents (`int64`, modelled as `Int`). -/
structure Account where
  id : String
  customerId : String
  type : AccountType
  status : AccountStatus
  balance : Int
  currencyCode : String
  name : String
  number : String
  createdAt : Int
  updatedAt : Int
  closedAt : Option Int
deriving DecidableEq, Repr

/-- `NewAccount`: fresh id and number are passed in for `uuid.New()`. -/
def newAccount (customerId : String) (accType : AccountType) (name currencyCode : String)
    (id number : String) (now : Int) : Account :=
  { id := id
    customerId := customerId
    type := accType
    status := AccountStatus.active
    balance := 0
    currencyCode := currencyCode
    name := name
    number := number
    createdAt := now
    updatedAt := now
    closedAt := none }

/-- `Account.IsActive`. -/
def Account.isActive (a : Account) : Bool :=
  a.status == AccountStatus.active

/-- `Account.Close`. -/
def Account.close (a : Account) (now : Int) : Account :=
  { a with status := AccountStatus.closed, closedAt := some now, updatedAt := now }

/-- `Account.Deposit`: returns the updated receiver and the error value. -/
def Account.deposit (a : Account) (amount : Int) (now : Int) : Account × Option AccountError :=
  if !a.isActive then
    (a, some AccountError.accountClosed)
  else
    ({ a with balance := a.balance + amount, updatedAt := now }, none)

/-- `Account.Withdraw`: returns the updated receiver and the error value. -/
def Account.withdraw (a : Account) (amount : Int) (now : Int) : Account × Option AccountError :=
  if !a.isActive then
    (a, some AccountError.accountClosed)
  else if a.balance < amount then
    (a, some AccountError.insufficientFunds)
  else
    ({ a with balance := a.balance - amount, updatedAt := now }, none)

/-- One entity-level call in a sequence: a deposit or a withdrawal, with the
instant at which it is made. -/
inductive AccountOp where
  | deposit (amount : Int) (now : Int)
  | withdraw (amount : Int) (now : Int)
deriving DecidableEq, Repr

/-- Apply one entity-level call. -/
def Account.applyOp (a : Account) (op : AccountOp) : Account × Option AccountError :=
  match op with
  | AccountOp.deposit amount now => a.deposit amount now
  | AccountOp.withdraw amount now => a.withdraw amount now

/-- Run a sequence of entity-level calls, requiring each call individually to
return no error; `none` if some call errs. -/
def Account.runOps (a : Account) : List AccountOp → Option Account
  | [] => some a
  | op :: rest =>
    match a.applyOp op with
    | (a2, none) => a2.runOps rest
    | (_, some _) => none

/-- The amount of an `AccountOp`. -/
def AccountOp.amount : AccountOp → Int
  | AccountOp.deposit amount _ => amount
  | AccountOp.withdraw amount _ => amount

/-- A single successful entity-level call with a nonnegative amount keeps a
nonnegative balance nonnegative. -/
theorem Account.applyOp_nonneg (a a2 : Account) (op : AccountOp)
    (hbal : 0 ≤ a.balance) (hamt : 0 ≤ op.amount) (h : a.applyOp op = (a2, none)) :
    0 ≤ a2.balance := by
  cases op with
  | deposit amount now =>
    simp only [AccountOp.amount] at hamt
    simp only [Account.applyOp, Account.deposit] at h
    split at h
    · simp at h
    · rw [Prod.mk.injEq] at h
      rw [← h.1]
      simpa using add_nonneg hbal hamt
  | withdraw amount now =>
    simp only [AccountOp.amount] at hamt
    simp only [Account.applyOp, Account.withdraw] at h
    split at h
    · simp at h
    · split at h
      · simp at h
      · rw [Prod.mk.injEq] at h
        rw [← h.1]
        rename_i hlt
        simp only
        omega

/-- A successful run over a prefix keeps the balance nonnegative. -/
theorem Account.runOps_take_nonneg (ops : List AccountOp) :
    ∀ (a b : Account) (k : Nat), 0 ≤ a.balance → (∀ op ∈ ops, 0 ≤ op.amount) →
      a.runOps (ops.take k) = some b → 0 ≤ b.balance := by
  induction ops with
  | nil =>
    intro a b k hbal _ hrun
    simp [Account.runOps] at hrun
    simpa [← hrun] using hbal
  | cons op rest ih =>
    intro a b k hbal hamts hrun
    cases k with
    | zero =>
      simp [Account.runOps] at hrun
      simpa [← hrun] using hbal
    | succ k =>
      rw [List.take_succ_cons] at hrun
      rcases h2 : a.applyOp op with ⟨a2, e⟩
      cases e with
      | none =>
        rw [Account.runOps, h2] at hrun
        exact ih a2 b k
          (Account.applyOp_nonneg a a2 op hbal (hamts op (by simp)) h2)
          (fun o ho => hamts o (by simp [ho])) hrun
      | some err =>
        rw [Account.runOps, h2] at hrun
        exact absurd hrun (by simp)

/-- Concrete account for claim C2: a freshly created active account, balance 0. -/
def c2Account : Account :=
  newAccount "cust-1" AccountType.checking "Main" "USD" "acc-1" "num-1" 0

/-- Result of depositing -1 into `c2Account`. -/
def c2AccountAfter : Account :=
  { c2Account with balance := -1 }

/-- C2 counterexample: entity-level `Deposit` does not validate the amount, so the
single-call sequence `Deposit(-1)` succeeds (each call individually returned no
error) yet leaves the balance negative. -/
theorem C2_counterexample :
    c2Account.runOps [AccountOp.deposit (-1) 0] = some c2AccountAfter ∧
      c2AccountAfter.balance < 0 := by
  constructor
  · rfl
  · decide

/-- C2 (amended): for every account with nonnegative balance and every sequence of
entity-level Deposit/Withdraw calls with nonnegative amounts in which each call
individually returned no error, the balance is never negative at any point of the
sequence (i.e. after any prefix of the run). -/
theorem C2_balance_nonneg (a b : Account) (ops : List AccountOp) (k : Nat)
    (hbal : 0 ≤ a.balance) (hamts : ∀ op ∈ ops, 0 ≤ op.amount)
    (hrun : a.runOps (ops.take k) = some b) :
    0 ≤ b.balance :=
  Account.runOps_take_nonneg ops a b k hbal hamts hrun

/-- Witness for C2: a concrete two-call run (deposit 5, withdraw 3) from a fresh
account, checked after the full prefix. -/
theorem C2_witness :
    0 ≤ (newAccount "c" AccountType.savings "n" "USD" "a" "x" 0).balance ∧
      0 ≤ ({ newAccount "c" AccountType.savings "n" "USD" "a" "x" 0 with
              balance := 2, updatedAt := 1 } : Account).balance :=
  ⟨by decide,
    C2_balance_nonneg (newAccount "c" AccountType.savings "n" "USD" "a" "x" 0)
      { newAccount "c" AccountType.savings "n" "USD" "a" "x" 0 with
          balance := 2, updatedAt := 1 }
      [AccountOp.deposit 5 0, AccountOp.withdraw 3 1] 2
      (by decide) (by decide) rfl⟩

/-! ## Banking domain: transactions (src/services/banking/internal/domain/transaction.go) -/

inductive TransactionType where
  | deposit
  | withdrawal
  | transfer
  | fee
  | interest
deriving DecidableEq, Repr

inductive TransactionStatus where
  | pending
  | completed
  | failed
  | reversed
deriving DecidableEq, Repr

/-- The `Transaction` struct. -/
structure Transaction where
  id : String
  type : TransactionType
  status : TransactionStatus
  accountId : String
  sourceAccountId : Option String
  targetAccountId : Option String
  amount : Int
  currencyCode : String
  description : String
  reference : String
  metadata : List (String × String)
  createdAt : Int
  updatedAt : Int
  completedAt : Option Int
deriving DecidableEq, Repr

/-- `NewTransaction`: fresh id and generated reference are passed in. -/
def newTransaction (txType : TransactionType) (accountId : String) (amount : Int)
    (currencyCode description : String) (id ref : String) (now : Int) : Transaction :=
  { id := id
    type := txType
    status := TransactionStatus.pending
    accountId := accountId
    sourceAccountId := none
    targetAccountId := none
    amount := amount
    currencyCode := currencyCode
    description := description
    reference := ref
    metadata := []
    createdAt := now
    updatedAt := now
    completedAt := none }

/-- `NewTransferTransaction`. -/
def newTransferTransaction (sourceAccountId targetAccountId : String) (amount : Int)
    (currencyCode description : String) (id ref : String) (now : Int) : Transaction :=
  { newTransaction TransactionType.transfer sourceAccountId amount currencyCode description
      id ref now with
    sourceAccountId := some sourceAccountId
    targetAccountId := some targetAccountId }

/-- `Transaction.Complete`. -/
def Transaction.complete (t : Transaction) (now : Int) : Transaction :=
  { t with status := TransactionStatus.completed, completedAt := some now, updatedAt := now }

/-! ## Banking service: accountService (src/unnamed/part_012, package banking/internal/service)

The account repository is an in-memory list; `GetByID` is a lookup by id (failing
with `ErrAccountNotFound` when absent) and `Update` replaces the entry with the
matching id and always succeeds.  The transaction repository is the list of
persisted transactions; the source never calls it (its save is a placeholder),
so the service methods end with the error "transaction repository not
implemented" after completing the account updates. -/

inductive ServiceError where
  | domain (e : AccountError)
  | txRepoNotImplemented
deriving DecidableEq, Repr

/-- The persistent state seen by the account service. -/
structure BankState where
  accounts : List Account
  transactions : List Transaction
deriving DecidableEq, Repr

/-- `accountRepo.GetByID`. -/
def getAccount (st : BankState) (id : String) : Option Account :=
  st.accounts.find? (fun a => a.id == id)

/-- `accountRepo.Update`: replaces the stored account with the same id. -/
def updateAccount (st : BankState) (a : Account) : BankState :=
  { st with accounts := st.accounts.map (fun x => if x.id == a.id then a else x) }

/-- Result of one service call: the state afterwards, the returned transaction
(if non-nil) and the returned error (if non-nil). -/
structure ServiceResult where
  state : BankState
  tx : Option Transaction
  err : Option ServiceError
deriving DecidableEq, Repr

/-- `accountService.Deposit`. -/
def serviceDeposit (st : BankState) (accountId : String) (amount : Int)
    (description : String) (now : Int) (txId ref : String) : ServiceResult :=
  match getAccount st accountId with
  | none => ⟨st, none, some (ServiceError.domain AccountError.accountNotFound)⟩
  | some account =>
    match account.deposit amount now with
    | (_, some e) => ⟨st, none, some (ServiceError.domain e)⟩
    | (account2, none) =>
      let st2 := updateAccount st account2
      let tx := (newTransaction TransactionType.deposit accountId amount
        account2.currencyCode description txId ref now).complete now
      ⟨st2, some tx, some ServiceError.txRepoNotImplemented⟩

/-- `accountService.Withdraw`. -/
def serviceWithdraw (st : BankState) (accountId : String) (amount : Int)
    (description : String) (now : Int) (txId ref : String) : ServiceResult :=
  match getAccount st accountId with
  | none => ⟨st, none, some (ServiceError.domain AccountError.accountNotFound)⟩
  | some account =>
    match account.withdraw amount now with
    | (_, some e) => ⟨st, none, some (ServiceError.domain e)⟩
    | (account2, none) =>
      let st2 := updateAccount st account2
      let tx := (newTransaction TransactionType.withdrawal accountId amount
        account2.currencyCode description txId ref now).complete now
      ⟨st2, some tx, some ServiceError.txRepoNotImplemented⟩

/-- `accountService.Transfer`. -/
def serviceTransfer (st : BankState) (sourceId targetId : String) (amount : Int)
    (description : String) (now : Int) (txId ref : String) : ServiceResult :=
  match getAccount st sourceId with
  | none => ⟨st, none, some (ServiceError.domain AccountError.accountNotFound)⟩
  | some sourceAccount =>
    match getAccount st targetId with
    | none => ⟨st, none, some (ServiceError.domain AccountError.accountNotFound)⟩
    | some targetAccount =>
      if !sourceAccount.isActive then
        ⟨st, none, some (ServiceError.domain AccountError.accountClosed)⟩
      else if !targetAccount.isActive then
        ⟨st, none, some (ServiceError.domain AccountError.accountClosed)⟩
      else
        match sourceAccount.withdraw amount now with
        | (_, some e) => ⟨st, none, some (ServiceError.domain e)⟩
        | (source2, none) =>
          match targetAccount.deposit amount now with
          | (_, some e) => ⟨st, none, some (ServiceError.domain e)⟩
          | (target2, none) =>
            let st2 := updateAccount (updateAccount st source2) target2
            let tx := (newTransferTransaction sourceId targetId amount
              source2.currencyCode description txId ref now).complete now
            ⟨st2, some tx, some ServiceError.txRepoNotImplemented⟩

/-- C4: transferring 40 between active accounts A (balance 100) and B (balance 0)
leaves A at 60 and B at 40 in the store, and constructs exactly one transaction,
of type transfer, with source reference A and target reference B; no transaction
is persisted. -/
theorem C4_transfer_100_to_0 (a b : Account) (desc : String) (now : Int) (txId ref : String)
    (ha : a.status = AccountStatus.active) (hb : b.status = AccountStatus.active)
    (hbalA : a.balance = 100) (hbalB : b.balance = 0) (hid : a.id ≠ b.id) :
    (serviceTransfer ⟨[a, b], []⟩ a.id b.id 40 desc now txId ref).state.accounts =
        [{ a with balance := 60, updatedAt := now },
          { b with balance := 40, updatedAt := now }] ∧
      (serviceTransfer ⟨[a, b], []⟩ a.id b.id 40 desc now txId ref).tx =
        some ((newTransferTransaction a.id b.id 40 a.currencyCode desc txId ref now).complete
          now) ∧
      ((newTransferTransaction a.id b.id 40 a.currencyCode desc txId ref now).complete
          now).type = TransactionType.transfer ∧
      ((newTransferTransaction a.id b.id 40 a.currencyCode desc txId ref now).complete
          now).sourceAccountId = some a.id ∧
      ((newTransferTransaction a.id b.id 40 a.currencyCode desc txId ref now).complete
          now).targetAccountId = some b.id ∧
      (serviceTransfer ⟨[a, b], []⟩ a.id b.id 40 desc now txId ref).state.transactions = [] := by
  have h1 : (a.id == b.id) = false := beq_eq_false_iff_ne.mpr hid
  have h2 : (b.id == a.id) = false := beq_eq_false_iff_ne.mpr (Ne.symm hid)
  have hact : a.isActive = true := by simp [Account.isActive, ha]
  have hbct : b.isActive = true := by simp [Account.isActive, hb]
  have h3 : ¬b.id = a.id := Ne.symm hid
  simp [serviceTransfer, getAccount, updateAccount, List.find?, h1, h2, hact, hbct,
    Account.withdraw, Account.deposit, hbalA, hbalB, newTransferTransaction,
    newTransaction, Transaction.complete, hid, h3]

/-- Concrete source account for the C4 witness: active, balance 100. -/
def c4AccountA : Account :=
  { newAccount "custA" AccountType.checking "A" "USD" "acc-A" "numA" 0 with balance := 100 }

/-- Concrete target account for the C4 witness: active, balance 0. -/
def c4AccountB : Account :=
  newAccount "custB" AccountType.checking "B" "USD" "acc-B" "numB" 0

/-- Witness for C4 at the concrete accounts `c4AccountA` and `c4AccountB`. -/
theorem C4_witness :
    (serviceTransfer ⟨[c4AccountA, c4AccountB], []⟩ c4AccountA.id c4AccountB.id 40 "d" 9
          "t" "r").state.accounts =
        [{ c4AccountA with balance := 60, updatedAt := 9 },
          { c4AccountB with balance := 40, updatedAt := 9 }] ∧
      (serviceTransfer ⟨[c4AccountA, c4AccountB], []⟩ c4AccountA.id c4AccountB.id 40 "d" 9
          "t" "r").tx =
        some ((newTransferTransaction c4AccountA.id c4AccountB.id 40 c4AccountA.currencyCode
          "d" "t" "r" 9).complete 9) ∧
      ((newTransferTransaction c4AccountA.id c4AccountB.id 40 c4AccountA.currencyCode
          "d" "t" "r" 9).complete 9).type = TransactionType.transfer ∧
      ((newTransferTransaction c4AccountA.id c4AccountB.id 40 c4AccountA.currencyCode
          "d" "t" "r" 9).complete 9).sourceAccountId = some c4AccountA.id ∧
      ((newTransferTransaction c4AccountA.id c4AccountB.id 40 c4AccountA.currencyCode
          "d" "t" "r" 9).complete 9).targetAccountId = some c4AccountB.id ∧
      (serviceTransfer ⟨[c4AccountA, c4AccountB], []⟩ c4AccountA.id c4AccountB.id 40 "d" 9
          "t" "r").state.transactions = [] :=
  C4_transfer_100_to_0 c4AccountA c4AccountB "d" 9 "t" "r" rfl rfl rfl rfl (by decide)

/-- C5: whenever the account loads succeed and the entity-level mutation succeeds
(so the repository update is reached, and updates always succeed), the service
methods Deposit, Withdraw and Transfer persist the mutated balances, construct a
completed transaction, return it together with the non-nil error
"transaction repository not implemented", and never persist the transaction. -/
theorem C5_service_ops_not_implemented :
    (∀ (st : BankState) (accountId : String) (amount : Int) (description : String)
        (now : Int) (txId ref : String) (a : Account),
      getAccount st accountId = some a → (a.deposit amount now).2 = none →
        serviceDeposit st accountId amount description now txId ref =
          ⟨updateAccount st (a.deposit amount now).1,
            some ((newTransaction TransactionType.deposit accountId amount
              (a.deposit amount now).1.currencyCode description txId ref now).complete now),
            some ServiceError.txRepoNotImplemented⟩ ∧
          ((newTransaction TransactionType.deposit accountId amount
            (a.deposit amount now).1.currencyCode description txId ref now).complete
              now).status = TransactionStatus.completed ∧
          (updateAccount st (a.deposit amount now).1).transactions = st.transactions) ∧
    (∀ (st : BankState) (accountId : String) (amount : Int) (description : String)
        (now : Int) (txId ref : String) (a : Account),
      getAccount st accountId = some a → (a.withdraw amount now).2 = none →
        serviceWithdraw st accountId amount description now txId ref =
          ⟨updateAccount st (a.withdraw amount now).1,
            some ((newTransaction TransactionType.withdrawal accountId amount
              (a.withdraw amount now).1.currencyCode description txId ref now).complete now),
            some ServiceError.txRepoNotImplemented⟩ ∧
          ((newTransaction TransactionType.withdrawal accountId amount
            (a.withdraw amount now).1.currencyCode description txId ref now).complete
              now).status = TransactionStatus.completed ∧
          (updateAccount st (a.withdraw amount now).1).transactions = st.transactions) ∧
    (∀ (st : BankState) (sourceId targetId : String) (amount : Int) (description : String)
        (now : Int) (txId ref : String) (sa ta : Account),
      getAccount st sourceId = some sa → getAccount st targetId = some ta →
      sa.isActive = true → ta.isActive = true → (sa.withdraw amount now).2 = none →
        serviceTransfer st sourceId targetId amount description now txId ref =
          ⟨updateAccount (updateAccount st (sa.withdraw amount now).1)
              (ta.deposit amount now).1,
            some ((newTransferTransaction sourceId targetId amount
              (sa.withdraw amount now).1.currencyCode description txId ref now).complete now),
            some ServiceError.txRepoNotImplemented⟩ ∧
          ((newTransferTransaction sourceId targetId amount
            (sa.withdraw amount now).1.currencyCode description txId ref now).complete
              now).status = TransactionStatus.completed ∧
          (updateAccount (updateAccount st (sa.withdraw amount now).1)
            (ta.deposit amount now).1).transactions = st.transactions) := by
  refine ⟨?_, ?_, ?_⟩
  · intro st accountId amount description now txId ref a hget hok
    rcases hd : a.deposit amount now with ⟨a2, e⟩
    rw [hd] at hok
    simp only at hok
    subst hok
    refine ⟨?_, rfl, rfl⟩
    simp [serviceDeposit, hget, hd]
  · intro st accountId amount description now txId ref a hget hok
    rcases hw : a.withdraw amount now with ⟨a2, e⟩
    rw [hw] at hok
    simp only at hok
    subst hok
    refine ⟨?_, rfl, rfl⟩
    simp [serviceWithdraw, hget, hw]
  · intro st sourceId targetId amount description now txId ref sa ta hgs hgt hsa hta hok
    rcases hw : sa.withdraw amount now with ⟨sa2, e⟩
    rw [hw] at hok
    simp only at hok
    subst hok
    rcases hdp : ta.deposit amount now with ⟨ta2, e2⟩
    have he2 : e2 = none := by
      have h := congrArg Prod.snd hdp
      simp [Account.deposit, hta] at h
      exact h.symm
    subst he2
    refine ⟨?_, rfl, rfl⟩
    simp [serviceTransfer, hgs, hgt, hsa, hta, hw, hdp]

/-- Concrete state for the C5 witness: one active account with balance 50. -/
def c5Account : Account :=
  { newAccount "cust5" AccountType.savings "S" "USD" "acc-5" "num5" 0 with balance := 50 }

/-- Witness for C5: the deposit branch of the theorem applied at a concrete
one-account state. -/
theorem C5_witness :
    serviceDeposit ⟨[c5Account], []⟩ c5Account.id 7 "d" 3 "t" "r" =
        ⟨updateAccount ⟨[c5Account], []⟩ (c5Account.deposit 7 3).1,
          some ((newTransaction TransactionType.deposit c5Account.id 7
            (c5Account.deposit 7 3).1.currencyCode "d" "t" "r" 3).complete 3),
          some ServiceError.txRepoNotImplemented⟩ ∧
      ((newTransaction TransactionType.deposit c5Account.id 7
        (c5Account.deposit 7 3).1.currencyCode "d" "t" "r" 3).complete 3).status =
        TransactionStatus.completed ∧
      (updateAccount ⟨[c5Account], []⟩ (c5Account.deposit 7 3).1).transactions =
        ([] : List Transaction) :=
  C5_service_ops_not_implemented.1 ⟨[c5Account], []⟩ c5Account.id 7 "d" 3 "t" "r" c5Account
    rfl rfl

/-- Concrete active account with balance 100 for claim C3. -/
def c3Account : Account :=
  { newAccount "cust-3" AccountType.checking "Main" "USD" "acc-3" "num-3" 0 with
      balance := 100 }

/-- C3: on an active account with balance B, `Withdraw(amount)` fails with
InsufficientFunds iff amount > B; on any error the account is unchanged; on
success the balance becomes B - amount. -/
theorem C3_withdraw_insufficient_funds (a : Account) (amount now : Int)
    (h : a.status = AccountStatus.active) :
    ((a.withdraw amount now).2 = some AccountError.insufficientFunds ↔ a.balance < amount) ∧
      ((a.withdraw amount now).2 ≠ none → (a.withdraw amount now).1 = a) ∧
      ((a.withdraw amount now).2 = none →
        (a.withdraw amount now).1 =
          { a with balance := a.balance - amount, updatedAt := now }) := by
  have hact : a.isActive = true := by simp [Account.isActive, h]
  by_cases hlt : a.balance < amount
  · simp [Account.withdraw, hact, hlt]
  · simp [Account.withdraw, hact, hlt]

/-- Witness for C3: `c3Account` is active; withdrawing 40 at instant 7 succeeds and
leaves balance 60. -/
theorem C3_witness :
    ((c3Account.withdraw 40 7).2 = some AccountError.insufficientFunds ↔
        c3Account.balance < 40) ∧
      ((c3Account.withdraw 40 7).2 ≠ none → (c3Account.withdraw 40 7).1 = c3Account) ∧
      ((c3Account.withdraw 40 7).2 = none →
        (c3Account.withdraw 40 7).1 =
          { c3Account with balance := c3Account.balance - 40, updatedAt := 7 }) :=
  C3_withdraw_insufficient_funds c3Account 40 7 rfl

/-! ## Treasury domain: tax rates (src/services/treasury/internal/domain/tax_rate.go) -/

inductive TaxType where
  | income
  | sales
  | property
  | business
  | excise
deriving DecidableEq, Repr

inductive TaxStatus where
  | active
  | inactive
  | proposed
  | archived
deriving DecidableEq, Repr

inductive TaxBracketType where
  | flat
  | progressive
  | tiered
deriving DecidableEq, Repr

inductive TaxRateError where
  | taxRateNotFound
  | invalidTaxRate
deriving DecidableEq, Repr

/-- The `TaxRate` struct: the `float64` rate is modelled as an exact rational. -/
structure TaxRate where
  id : String
  type : TaxType
  name : String
  description : String
  rate : ℚ
  bracketType : TaxBracketType
  minAmount : Int
  maxAmount : Int
  status : TaxStatus
  category : String
  jurisdictionCode : String
  effectiveDate : Int
  expirationDate : Option Int
  createdAt : Int
  updatedAt : Int
deriving DecidableEq, Repr

/-- Go `int64(float64(amount) * rate)`: the exact product `amount * rate` truncated
toward zero (`Int.div` is T-division; a rational's denominator is positive). -/
def ratTruncMul (amount : Int) (rate : ℚ) : Int :=
  Int.tdiv (amount * rate.num) (rate.den : Int)

/-- `NewTaxRate`: validates `rate < 0 || rate > 1`; fresh id is passed in. -/
def newTaxRate (taxType : TaxType) (name description : String) (rate : ℚ)
    (bracketType : TaxBracketType) (minAmount maxAmount : Int)
    (category jurisdictionCode : String) (effectiveDate : Int)
    (expirationDate : Option Int) (id : String) (now : Int) :
    Except TaxRateError TaxRate :=
  if rate < 0 ∨ rate > 1 then
    Except.error TaxRateError.invalidTaxRate
  else
    Except.ok
      { id := id
        type := taxType
        name := name
        description := description
        rate := rate
        bracketType := bracketType
        minAmount := minAmount
        maxAmount := maxAmount
        status := TaxStatus.proposed
        category := category
        jurisdictionCode := jurisdictionCode
        effectiveDate := effectiveDate
        expirationDate := expirationDate
        createdAt := now
        updatedAt := now }

/-- `TaxRate.UpdateTaxRate`: returns the updated receiver and the error value. -/
def TaxRate.updateTaxRate (tr : TaxRate) (name description : String) (rate : ℚ)
    (category : String) (effectiveDate : Int) (expirationDate : Option Int)
    (now : Int) : TaxRate × Option TaxRateError :=
  if rate < 0 ∨ rate > 1 then
    (tr, some TaxRateError.invalidTaxRate)
  else
    ({ tr with
        name := name
        description := description
        rate := rate
        category := category
        effectiveDate := effectiveDate
        expirationDate := expirationDate
        updatedAt := now }, none)

/-- `TaxRate.IsApplicable`. -/
def TaxRate.isApplicable (tr : TaxRate) (amount : Int) : Bool :=
  if tr.bracketType == TaxBracketType.flat then
    true
  else if tr.minAmount > 0 ∧ amount < tr.minAmount then
    false
  else if tr.maxAmount > 0 ∧ amount > tr.maxAmount then
    false
  else
    true

/-- `TaxRate.CalculateTax`. -/
def TaxRate.calculateTax (tr : TaxRate) (amount : Int) : Int :=
  if !tr.isApplicable amount then
    0
  else if tr.bracketType == TaxBracketType.progressive then
    let taxableAmount := amount
    let taxableAmount2 :=
      if tr.minAmount > 0 then
        if amount - tr.minAmount < 0 then 0 else amount - tr.minAmount
      else taxableAmount
    let taxableAmount3 :=
      if tr.maxAmount > 0 ∧ amount > tr.maxAmount then tr.maxAmount - tr.minAmount
      else taxableAmount2
    ratTruncMul taxableAmount3 tr.rate
  else
    ratTruncMul amount tr.rate

/-- The progressive tax rate of claim C1: min 1000, max 5000, rate 0.10. -/
def c1TaxRate : TaxRate :=
  { id := "tr-1"
    type := TaxType.income
    name := "bracket"
    description := ""
    rate := ⟨1, 10, by decide, by decide⟩
    bracketType := TaxBracketType.progressive
    minAmount := 1000
    maxAmount := 5000
    status := TaxStatus.active
    category := ""
    jurisdictionCode := "US"
    effectiveDate := 0
    expirationDate := none
    createdAt := 0
    updatedAt := 0 }

/-- The C1 rate literal is exactly 0.10. -/
theorem c1TaxRate_rate_eq : c1TaxRate.rate = 1 / 10 := by
  show (⟨1, 10, by decide, by decide⟩ : ℚ) = 1 / 10
  rw [Rat.mk'_eq_divInt, Rat.divInt_eq_div]
  norm_num

/-- C1: on the progressive rate {min 1000, max 5000, rate 0.10}, `CalculateTax`
returns 200 at 3000 and 0 at 500 as claimed, but 0 — not 400 — at 10000:
`IsApplicable` rejects amounts above max before the capping branch of
`CalculateTax` (which is unreachable) can run. -/
theorem C1_calculateTax_progressive_examples :
    c1TaxRate.calculateTax 3000 = 200 ∧
      c1TaxRate.calculateTax 500 = 0 ∧
      c1TaxRate.calculateTax 10000 = 0 ∧
      c1TaxRate.isApplicable 10000 = false := by
  decide

/-- A progressive tax rate with max below min, as accepted by `NewTaxRate`. -/
def c8Rate : TaxRate :=
  { id := "tr-8"
    type := TaxType.income
    name := "t"
    description := ""
    rate := ⟨1, 2, by decide, by decide⟩
    bracketType := TaxBracketType.progressive
    minAmount := 5000
    maxAmount := 1000
    status := TaxStatus.proposed
    category := ""
    jurisdictionCode := "US"
    effectiveDate := 0
    expirationDate := none
    createdAt := 0
    updatedAt := 0 }

/-- C8 counterexample: `NewTaxRate` performs no min/max validation, so it happily
constructs a progressive rate with both bounds set and max < min. -/
theorem C8_counterexample :
    newTaxRate TaxType.income "t" "" ⟨1, 2, by decide, by decide⟩
        TaxBracketType.progressive 5000 1000 "" "US" 0 none "tr-8" 0 =
        Except.ok c8Rate ∧
      c8Rate.bracketType = TaxBracketType.progressive ∧
      0 < c8Rate.minAmount ∧ 0 < c8Rate.maxAmount ∧
      c8Rate.maxAmount < c8Rate.minAmount := by
  refine ⟨?_, by decide, by decide, by decide, by decide⟩
  have h : ¬((⟨1, 2, by decide, by decide⟩ : ℚ) < 0 ∨ (⟨1, 2, by decide, by decide⟩ : ℚ) > 1) := by
    decide
  simp [newTaxRate, h, c8Rate]

/-- C8 (amended): `NewTaxRate` and `UpdateTaxRate` enforce 0 ≤ rate ≤ 1, failing
with ErrInvalidTaxRate exactly when the rate is out of range (and leaving the
receiver unchanged on failure); no relation between min and max amounts is
validated. -/
theorem C8_rate_bounds (taxType : TaxType) (name description : String) (rate : ℚ)
    (bracketType : TaxBracketType) (minAmount maxAmount : Int)
    (category jurisdictionCode : String) (effectiveDate : Int)
    (expirationDate : Option Int) (id : String) (now : Int) (tr0 tr : TaxRate) :
    (newTaxRate taxType name description rate bracketType minAmount maxAmount category
        jurisdictionCode effectiveDate expirationDate id now = Except.ok tr →
      0 ≤ tr.rate ∧ tr.rate ≤ 1) ∧
    (newTaxRate taxType name description rate bracketType minAmount maxAmount category
        jurisdictionCode effectiveDate expirationDate id now =
        Except.error TaxRateError.invalidTaxRate ↔ (rate < 0 ∨ rate > 1)) ∧
    ((tr0.updateTaxRate name description rate category effectiveDate expirationDate now).2 =
        none →
      0 ≤ (tr0.updateTaxRate name description rate category effectiveDate expirationDate
            now).1.rate ∧
        (tr0.updateTaxRate name description rate category effectiveDate expirationDate
            now).1.rate ≤ 1) ∧
    ((tr0.updateTaxRate name description rate category effectiveDate expirationDate now).2 =
        some TaxRateError.invalidTaxRate ↔ (rate < 0 ∨ rate > 1)) ∧
    ((tr0.updateTaxRate name description rate category effectiveDate expirationDate now).2 ≠
        none →
      (tr0.updateTaxRate name description rate category effectiveDate expirationDate now).1 =
        tr0) := by
  by_cases h : rate < 0 ∨ rate > 1
  · simp [newTaxRate, TaxRate.updateTaxRate, h]
  · have hb0 : 0 ≤ rate := le_of_not_lt (fun hx => h (Or.inl hx))
    have hb1 : rate ≤ 1 := le_of_not_lt (fun hx => h (Or.inr hx))
    simp only [newTaxRate, TaxRate.updateTaxRate, if_neg h]
    refine ⟨?_, by simp [h], ?_, by simp [h], by simp⟩
    · intro he
      rw [Except.ok.injEq] at he
      rw [← he]
      exact ⟨hb0, hb1⟩
    · intro _
      exact ⟨hb0, hb1⟩

/-- Witness for C8 at a concrete in-range rate and concrete receiver. -/
theorem C8_witness :
    (newTaxRate TaxType.sales "n" "" ⟨1, 2, by decide, by decide⟩ TaxBracketType.flat 0 0
        "" "US" 0 none "tr-9" 0 = Except.ok c8Rate →
      0 ≤ c8Rate.rate ∧ c8Rate.rate ≤ 1) ∧
    (newTaxRate TaxType.sales "n" "" ⟨1, 2, by decide, by decide⟩ TaxBracketType.flat 0 0
        "" "US" 0 none "tr-9" 0 = Except.error TaxRateError.invalidTaxRate ↔
      ((⟨1, 2, by decide, by decide⟩ : ℚ) < 0 ∨ (⟨1, 2, by decide, by decide⟩ : ℚ) > 1)) ∧
    ((c8Rate.updateTaxRate "n" "" ⟨1, 2, by decide, by decide⟩ "" 0 none 0).2 = none →
      0 ≤ (c8Rate.updateTaxRate "n" "" ⟨1, 2, by decide, by decide⟩ "" 0 none 0).1.rate ∧
        (c8Rate.updateTaxRate "n" "" ⟨1, 2, by decide, by decide⟩ "" 0 none 0).1.rate ≤ 1) ∧
    ((c8Rate.updateTaxRate "n" "" ⟨1, 2, by decide, by decide⟩ "" 0 none 0).2 =
        some TaxRateError.invalidTaxRate ↔
      ((⟨1, 2, by decide, by decide⟩ : ℚ) < 0 ∨ (⟨1, 2, by decide, by decide⟩ : ℚ) > 1)) ∧
    ((c8Rate.updateTaxRate "n" "" ⟨1, 2, by decide, by decide⟩ "" 0 none 0).2 ≠ none →
      (c8Rate.updateTaxRate "n" "" ⟨1, 2, by decide, by decide⟩ "" 0 none 0).1 = c8Rate) :=
  C8_rate_bounds TaxType.sales "n" "" ⟨1, 2, by decide, by decide⟩ TaxBracketType.flat 0 0
    "" "US" 0 none "tr-9" 0 c8Rate c8Rate

/-! ## Treasury domain: tax filings (src/services/treasury/internal/domain/tax_filing.go) -/

inductive FilingStatus where
  | draft
  | submitted
  | processing
  | accepted
  | rejected
  | amended
  | audited
deriving DecidableEq, Repr

inductive FilingPeriod where
  | monthly
  | quarterly
  | semiAnnual
  | annual
deriving DecidableEq, Repr

inductive TaxFilingError where
  | taxFilingNotFound
  | invalidFilingStatus
  | invalidFilingPeriod
deriving DecidableEq, Repr

/-- A `Deduction` entry. -/
structure Deduction where
  code : String
  description : String
  amount : Int
deriving DecidableEq, Repr

/-- A `Credit` entry. -/
structure Credit where
  code : String
  description : String
  amount : Int
deriving DecidableEq, Repr

/-- The `TaxFiling` struct. -/
structure TaxFiling where
  id : String
  taxpayerId : String
  taxYear : Int
  period : FilingPeriod
  periodStart : Int
  periodEnd : Int
  filingType : TaxType
  status : FilingStatus
  grossIncome : Int
  taxableIncome : Int
  totalSales : Int
  taxableAmount : Int
  taxCalculated : Int
  taxPaid : Int
  submissionDate : Option Int
  acceptanceDate : Option Int
  dueDate : Int
  deductions : List Deduction
  credits : List Credit
  notes : String
  createdAt : Int
  updatedAt : Int
deriving DecidableEq, Repr

/-- `NewTaxFiling`: validates `periodEnd.Before(periodStart)`; remaining fields get
Go zero values; fresh id is passed in. -/
def newTaxFiling (taxpayerId : String) (taxYear : Int) (period : FilingPeriod)
    (periodStart periodEnd : Int) (filingType : TaxType) (dueDate : Int)
    (id : String) (now : Int) : Except TaxFilingError TaxFiling :=
  if periodEnd < periodStart then
    Except.error TaxFilingError.invalidFilingPeriod
  else
    Except.ok
      { id := id
        taxpayerId := taxpayerId
        taxYear := taxYear
        period := period
        periodStart := periodStart
        periodEnd := periodEnd
        filingType := filingType
        status := FilingStatus.draft
        grossIncome := 0
        taxableIncome := 0
        totalSales := 0
        taxableAmount := 0
        taxCalculated := 0
        taxPaid := 0
        submissionDate := none
        acceptanceDate := none
        dueDate := dueDate
        deductions := []
        credits := []
        notes := ""
        createdAt := now
        updatedAt := now }

/-- `TaxFiling.SubmitFiling`: returns the updated receiver and the error value. -/
def TaxFiling.submitFiling (tf : TaxFiling) (now : Int) :
    TaxFiling × Option TaxFilingError :=
  if tf.status ≠ FilingStatus.draft then
    (tf, some TaxFilingError.invalidFilingStatus)
  else
    ({ tf with
        status := FilingStatus.submitted
        submissionDate := some now
        updatedAt := now }, none)

/-- `TaxFiling.AmendFiling`: returns the (untouched) receiver and the new amended
filing; the fresh id is passed in; the copy's created/updated instants are the Go
zero time (`time.Time{}` in the source), modelled as 0. -/
def TaxFiling.amendFiling (tf : TaxFiling) (newId : String) : TaxFiling × TaxFiling :=
  (tf,
    { tf with
        id := newId
        status := FilingStatus.amended
        submissionDate := none
        acceptanceDate := none
        notes := "Amended from filing ID: " ++ tf.id
        createdAt := 0
        updatedAt := 0 })

/-- The filing `NewTaxFiling` builds for equal period bounds (C7 counterexample). -/
def c7Filing : TaxFiling :=
  { id := "f-7"
    taxpayerId := "tp-7"
    taxYear := 2024
    period := FilingPeriod.annual
    periodStart := 0
    periodEnd := 0
    filingType := TaxType.income
    status := FilingStatus.draft
    grossIncome := 0
    taxableIncome := 0
    totalSales := 0
    taxableAmount := 0
    taxCalculated := 0
    taxPaid := 0
    submissionDate := none
    acceptanceDate := none
    dueDate := 100
    deductions := []
    credits := []
    notes := ""
    createdAt := 5
    updatedAt := 5 }

/-- C7 counterexample: `NewTaxFiling` only rejects `periodEnd.Before(periodStart)`
(strict), so a filing with periodEnd = periodStart is successfully constructed,
violating both halves of the claim. -/
theorem C7_counterexample :
    newTaxFiling "tp-7" 2024 FilingPeriod.annual 0 0 TaxType.income 100 "f-7" 5 =
        Except.ok c7Filing ∧
      ¬c7Filing.periodStart < c7Filing.periodEnd := by
  constructor
  · rfl
  · decide

/-- C7 (amended): every filing constructed by `NewTaxFiling` satisfies
period end ≥ period start, and construction fails with ErrInvalidFilingPeriod
exactly when periodEnd is strictly before periodStart (equal bounds succeed). -/
theorem C7_period_validation (taxpayerId : String) (taxYear : Int) (period : FilingPeriod)
    (periodStart periodEnd : Int) (filingType : TaxType) (dueDate : Int)
    (id : String) (now : Int) (tf : TaxFiling) :
    (newTaxFiling taxpayerId taxYear period periodStart periodEnd filingType dueDate id
        now = Except.ok tf →
      tf.periodStart ≤ tf.periodEnd) ∧
    (newTaxFiling taxpayerId taxYear period periodStart periodEnd filingType dueDate id
        now = Except.error TaxFilingError.invalidFilingPeriod ↔
      periodEnd < periodStart) := by
  by_cases h : periodEnd < periodStart
  · simp [newTaxFiling, h]
  · simp only [newTaxFiling, if_neg h]
    refine ⟨?_, by simp [h]⟩
    intro he
    rw [Except.ok.injEq] at he
    rw [← he]
    simpa using le_of_not_lt h

/-- Witness for C7 at concrete period bounds 3 ≤ 8. -/
theorem C7_witness :
    (newTaxFiling "tp" 2024 FilingPeriod.quarterly 3 8 TaxType.sales 50 "f-1" 1 =
        Except.ok c7Filing →
      c7Filing.periodStart ≤ c7Filing.periodEnd) ∧
    (newTaxFiling "tp" 2024 FilingPeriod.quarterly 3 8 TaxType.sales 50 "f-1" 1 =
        Except.error TaxFilingError.invalidFilingPeriod ↔ (8 : Int) < 3) :=
  C7_period_validation "tp" 2024 FilingPeriod.quarterly 3 8 TaxType.sales 50 "f-1" 1
    c7Filing

/-- C9: `SubmitFiling` fails with ErrInvalidFilingStatus exactly when the status is
not draft, leaving the filing (in particular its submissionDate) unchanged on
error; from draft it sets status=submitted and records the submission date. -/
theorem C9_submitFiling (tf : TaxFiling) (now : Int) :
    ((tf.submitFiling now).2 = some TaxFilingError.invalidFilingStatus ↔
        tf.status ≠ FilingStatus.draft) ∧
      ((tf.submitFiling now).2 ≠ none → (tf.submitFiling now).1 = tf) ∧
      (tf.status = FilingStatus.draft →
        (tf.submitFiling now).1 =
          { tf with
              status := FilingStatus.submitted
              submissionDate := some now
              updatedAt := now }) := by
  by_cases h : tf.status = FilingStatus.draft
  · simp [TaxFiling.submitFiling, h]
  · simp [TaxFiling.submitFiling, h]

/-- A submitted filing with a recorded submission date, for the C9 witness. -/
def c9Submitted : TaxFiling :=
  { c7Filing with id := "f-9", status := FilingStatus.submitted, submissionDate := some 6 }

/-- Witness for C9: submitting a draft filing records the date; submitting an
already-submitted filing errs and leaves it unchanged. -/
theorem C9_witness :
    (c9Submitted.submitFiling 8).1 = c9Submitted ∧
      ((c9Submitted.submitFiling 8).2 = some TaxFilingError.invalidFilingStatus ↔
        c9Submitted.status ≠ FilingStatus.draft) :=
  ⟨(C9_submitFiling c9Submitted 8).2.1 (by decide), (C9_submitFiling c9Submitted 8).1⟩

/-- C10: `AmendFiling` succeeds from any status, leaves every field of the original
unchanged, and returns a copy with the fresh identity, status=amended, cleared
submission/acceptance dates, and notes referencing the original id. -/
theorem C10_amendFiling (tf : TaxFiling) (newId : String) :
    (tf.amendFiling newId).1 = tf ∧
      (tf.amendFiling newId).2 =
        { tf with
            id := newId
            status := FilingStatus.amended
            submissionDate := none
            acceptanceDate := none
            notes := "Amended from filing ID: " ++ tf.id
            createdAt := 0
            updatedAt := 0 } ∧
      (newId ≠ tf.id → (tf.amendFiling newId).2.id ≠ tf.id) := by
  refine ⟨rfl, rfl, ?_⟩
  intro h
  simpa [TaxFiling.amendFiling] using h

/-- Witness for C10: amending `c9Submitted` (a non-draft filing) with a fresh id. -/
theorem C10_witness :
    (c9Submitted.amendFiling "f-10").1 = c9Submitted ∧
      (c9Submitted.amendFiling "f-10").2 =
        { c9Submitted with
            id := "f-10"
            status := FilingStatus.amended
            submissionDate := none
            acceptanceDate := none
            notes := "Amended from filing ID: " ++ c9Submitted.id
            createdAt := 0
            updatedAt := 0 } ∧
      ("f-10" ≠ c9Submitted.id → (c9Submitted.amendFiling "f-10").2.id ≠ c9Submitted.id) :=
  C10_amendFiling c9Submitted "f-10"

/-! ## Treasury domain: tax payments (src/services/treasury/internal/domain/tax_payment.go) -/

inductive PaymentMethod where
  | electronic
  | check
  | credit
  | debit
  | cash
  | wire
deriving DecidableEq, Repr

inductive PaymentStatus where
  | pending
  | completed
  | failed
  | refunded
  | voided
deriving DecidableEq, Repr

inductive TaxPaymentError where
  | taxPaymentNotFound
  | invalidPaymentAmount
  | onlyCompletedRefundable
deriving DecidableEq, Repr

/-- The `TaxPayment` struct. -/
structure TaxPayment where
  id : String
  taxpayerId : String
  filingId : String
  taxType : TaxType
  amount : Int
  paymentMethod : PaymentMethod
  status : PaymentStatus
  paymentDate : Int
  confirmationCode : String
  notes : String
  processedAt : Option Int
  refundedAt : Option Int
  createdAt : Int
  updatedAt : Int
deriving DecidableEq, Repr

/-- `TaxPayment.Refund`: returns the updated receiver and the error value
(`errors.New("only completed payments can be refunded")`). -/
def TaxPayment.refund (tp : TaxPayment) (reason : String) (now : Int) :
    TaxPayment × Option TaxPaymentError :=
  if tp.status ≠ PaymentStatus.completed then
    (tp, some TaxPaymentError.onlyCompletedRefundable)
  else
    ({ tp with
        status := PaymentStatus.refunded
        refundedAt := some now
        notes := tp.notes ++ "\nRefund reason: " ++ reason
        updatedAt := now }, none)

/-! ## Treasury service: taxPaymentService.RefundTaxPayment
(src/services/treasury/internal/service/tax_filing_service.go) -/

/-- The persistent state seen by the tax payment service. -/
structure TreasuryState where
  payments : List TaxPayment
  filings : List TaxFiling
deriving DecidableEq, Repr

/-- `taxPaymentRepo.GetByID`. -/
def getPayment (st : TreasuryState) (id : String) : Option TaxPayment :=
  st.payments.find? (fun p => p.id == id)

/-- `taxPaymentRepo.Update`. -/
def updatePayment (st : TreasuryState) (p : TaxPayment) : TreasuryState :=
  { st with payments := st.payments.map (fun x => if x.id == p.id then p else x) }

/-- `taxFilingRepo.GetByID`. -/
def getFiling (st : TreasuryState) (id : String) : Option TaxFiling :=
  st.filings.find? (fun f => f.id == id)

/-- `taxFilingRepo.Update`. -/
def updateFiling (st : TreasuryState) (f : TaxFiling) : TreasuryState :=
  { st with filings := st.filings.map (fun x => if x.id == f.id then f else x) }

/-- Result of one tax payment service call. -/
structure TreasuryResult where
  state : TreasuryState
  payment : Option TaxPayment
  err : Option TaxPaymentError
deriving DecidableEq, Repr

/-- `taxPaymentService.RefundTaxPayment`: refunds the payment, persists it, and —
when the payment is linked to a filing that loads — decrements the filing's
TaxPaid by the payment amount, flooring at 0 (a filing-load failure is only
logged). -/
def refundTaxPayment (st : TreasuryState) (id reason : String) (now : Int) :
    TreasuryResult :=
  match getPayment st id with
  | none => ⟨st, none, some TaxPaymentError.taxPaymentNotFound⟩
  | some payment =>
    match payment.refund reason now with
    | (_, some e) => ⟨st, none, some e⟩
    | (payment2, none) =>
      let st2 := updatePayment st payment2
      if payment2.filingId ≠ "" then
        match getFiling st2 payment2.filingId with
        | none => ⟨st2, some payment2, none⟩
        | some filing =>
          let paid := filing.taxPaid - payment2.amount
          let paid2 := if paid < 0 then 0 else paid
          let st3 := updateFiling st2 { filing with taxPaid := paid2, updatedAt := now }
          ⟨st3, some payment2, none⟩
      else ⟨st2, some payment2, none⟩

/-- C6: `Refund` errs exactly when the payment is not completed and mutates
nothing on error; and for a state holding a completed payment of amount 500
linked to filing f, `RefundTaxPayment` marks the payment refunded with a recorded
refund instant and floors f.TaxPaid - 500 at 0. -/
theorem C6_refund (tp p : TaxPayment) (f : TaxFiling) (reason : String) (now : Int)
    (hcomp : p.status = PaymentStatus.completed) (hamt : p.amount = 500)
    (hlink : p.filingId = f.id) (hne : f.id ≠ "") :
    ((tp.refund reason now).2.isSome ↔ tp.status ≠ PaymentStatus.completed) ∧
      ((tp.refund reason now).2.isSome → (tp.refund reason now).1 = tp) ∧
      ((refundTaxPayment ⟨[p], [f]⟩ p.id reason now).payment.map TaxPayment.status =
        some PaymentStatus.refunded) ∧
      ((refundTaxPayment ⟨[p], [f]⟩ p.id reason now).payment.map TaxPayment.refundedAt =
        some (some now)) ∧
      ((refundTaxPayment ⟨[p], [f]⟩ p.id reason now).state.filings =
        [{ f with
            taxPaid := if f.taxPaid - 500 < 0 then 0 else f.taxPaid - 500
            updatedAt := now }]) ∧
      ((refundTaxPayment ⟨[p], [f]⟩ p.id reason now).err = none) := by
  have hab : (tp.refund reason now).2.isSome ↔ tp.status ≠ PaymentStatus.completed := by
    by_cases h : tp.status = PaymentStatus.completed <;> simp [TaxPayment.refund, h]
  have hb : (tp.refund reason now).2.isSome → (tp.refund reason now).1 = tp := by
    by_cases h : tp.status = PaymentStatus.completed <;> simp [TaxPayment.refund, h]
  refine ⟨hab, hb, ?_, ?_, ?_, ?_⟩ <;>
    simp [refundTaxPayment, getPayment, getFiling, updatePayment, updateFiling,
      TaxPayment.refund, hcomp, hlink, hne, hamt, List.find?]

/-- Concrete completed payment of 500 linked to filing "f-6", for the C6 witness. -/
def c6Payment : TaxPayment :=
  { id := "pay-6"
    taxpayerId := "tp-6"
    filingId := "f-6"
    taxType := TaxType.income
    amount := 500
    paymentMethod := PaymentMethod.electronic
    status := PaymentStatus.completed
    paymentDate := 1
    confirmationCode := "PAY-1"
    notes := ""
    processedAt := some 2
    refundedAt := none
    createdAt := 1
    updatedAt := 2 }

/-- Concrete filing with TaxPaid 300 (so the decrement floors at 0), for the C6
witness. -/
def c6Filing : TaxFiling :=
  { id := "f-6"
    taxpayerId := "tp-6"
    taxYear := 2024
    period := FilingPeriod.annual
    periodStart := 0
    periodEnd := 10
    filingType := TaxType.income
    status := FilingStatus.accepted
    grossIncome := 0
    taxableIncome := 0
    totalSales := 0
    taxableAmount := 0
    taxCalculated := 800
    taxPaid := 300
    submissionDate := some 1
    acceptanceDate := some 2
    dueDate := 100
    deductions := []
    credits := []
    notes := ""
    createdAt := 0
    updatedAt := 2 }

/-- Witness for C6 at the concrete payment `c6Payment` and filing `c6Filing`. -/
theorem C6_witness :
    ((c6Payment.refund "r" 9).2.isSome ↔ c6Payment.status ≠ PaymentStatus.completed) ∧
      ((c6Payment.refund "r" 9).2.isSome → (c6Payment.refund "r" 9).1 = c6Payment) ∧
      ((refundTaxPayment ⟨[c6Payment], [c6Filing]⟩ c6Payment.id "r" 9).payment.map
          TaxPayment.status = some PaymentStatus.refunded) ∧
      ((refundTaxPayment ⟨[c6Payment], [c6Filing]⟩ c6Payment.id "r" 9).payment.map
          TaxPayment.refundedAt = some (some 9)) ∧
      ((refundTaxPayment ⟨[c6Payment], [c6Filing]⟩ c6Payment.id "r" 9).state.filings =
        [{ c6Filing with
            taxPaid := if c6Filing.taxPaid - 500 < 0 then 0 else c6Filing.taxPaid - 500
            updatedAt := 9 }]) ∧
      ((refundTaxPayment ⟨[c6Payment], [c6Filing]⟩ c6Payment.id "r" 9).err = none) :=
  C6_refund c6Payment c6Payment c6Filing "r" 9 rfl rfl rfl (by decide)

end Repotown
